import Mathlib

/-!
Shallow embedding of the Obsidian canvas minimap plugin (src/main.ts).

Coordinates are modelled as rationals: the source manipulates finite
machine floats with +, -, *, /2, min, max and comparisons only, and every
claim is about exact arithmetic on such values. Maps iterated with forEach
are modelled as lists in iteration order. DOM state (the overlay div, the
toolbar, the event-bus registrations) is modelled as explicit record
fields. Methods that throw are modelled with Except.
-/

namespace CanvasMinimap

/-- The four event kinds of the plugin event bus (src/main.ts line 26). -/
inductive CanvasEventType where
  | CANVAS_MOVED
  | CANVAS_DIRTY
  | CANVAS_VIEWPORT_CHANGED
  | CANVAS_TICK
deriving DecidableEq, Repr

/-- Navigation strategies (src/main.ts line 27). -/
inductive CanvasNavigationStrategy where
  | PAN
  | ZOOM
  | NONE
deriving DecidableEq, Repr

/-- 2D vector (src/main.ts lines 29-51). -/
structure Vector2 where
  x : ℚ
  y : ℚ
deriving DecidableEq, Repr

def Vector2.add (a b : Vector2) : Vector2 :=
  ⟨a.x + b.x, a.y + b.y⟩

def Vector2.sub (a b : Vector2) : Vector2 :=
  ⟨a.x - b.x, a.y - b.y⟩

def Vector2.lenSq (a : Vector2) : ℚ :=
  a.x * a.x + a.y * a.y

/-- Axis-aligned bounding box; the constructor defaults every field to 0
(src/main.ts lines 53-63). -/
structure BoundingBox where
  minX : ℚ := 0
  minY : ℚ := 0
  maxX : ℚ := 0
  maxY : ℚ := 0
deriving DecidableEq, Repr

def BoundingBox.width (b : BoundingBox) : ℚ :=
  b.maxX - b.minX

def BoundingBox.height (b : BoundingBox) : ℚ :=
  b.maxY - b.minY

/-- Point containment, all four comparisons inclusive (src/main.ts lines 75-77). -/
def BoundingBox.contains (b : BoundingBox) (p : Vector2) : Bool :=
  decide (p.x ≥ b.minX) && decide (p.x ≤ b.maxX) &&
    decide (p.y ≥ b.minY) && decide (p.y ≤ b.maxY)

/-- Validity: strict on both axes (src/main.ts lines 78-80). -/
def BoundingBox.isValid (b : BoundingBox) : Bool :=
  decide (b.minX < b.maxX) && decide (b.minY < b.maxY)

/-- A canvas node as the plugin reads it: position, size, and the
unknownData type tag used to separate groups from plain nodes
(src/main.ts lines 219-228). -/
structure Node where
  id : String
  x : ℚ
  y : ℚ
  width : ℚ
  height : ℚ
  nodeType : Option String := none
deriving DecidableEq, Repr

/-- The world-space box of a node, as exposed by the host canvas node
object (the `bbox` read at src/main.ts lines 631-635) and as carried by
the rendered rect (attrs x, y, width, height, src/main.ts lines 257-262). -/
def Node.bbox (n : Node) : BoundingBox :=
  { minX := n.x, minY := n.y, maxX := n.x + n.width, maxY := n.y + n.height }

/-- One step of the bounding-box accumulation in renderMinimap
(src/main.ts lines 220-223). -/
def bboxAccum (bbox : BoundingBox) (node : Node) : BoundingBox :=
  { minX := min bbox.minX node.x
    minY := min bbox.minY node.y
    maxX := max bbox.maxX (node.x + node.width)
    maxY := max bbox.maxY (node.y + node.height) }

/-- The content bounding box computed inside renderMinimap: the fold of
`bboxAccum` over the nodes, started from the zero-initialized
`new BoundingBox()` (src/main.ts lines 216-229). -/
def contentBBox (nodes : List Node) : BoundingBox :=
  nodes.foldl bboxAccum {}

/-- Spec-side definition, following claim C1 word for word: for a nonempty
node list, the min over node x and node y and the max over node x+width
and node y+height of the nodes alone (no zero seed). -/
def specMinMaxBBox (n0 : Node) (rest : List Node) : BoundingBox :=
  rest.foldl bboxAccum n0.bbox

/-- The join of a box with the zero box: what seeding the fold from
`new BoundingBox()` adds on top of the pure min/max of the nodes. -/
def zeroJoin (b : BoundingBox) : BoundingBox :=
  { minX := min 0 b.minX, minY := min 0 b.minY
    maxX := max 0 b.maxX, maxY := max 0 b.maxY }

/-- The plugin settings fields the core paths read (src/main.ts lines
91-129); the remaining fields are colors and DOM chrome. -/
structure CanvasMinimapSettings where
  width : ℚ := 400
  height : ℚ := 300
  margin : ℚ := 100
  fontSize : ℚ := 10
  drawActiveViewport : Bool := true
  primaryNavigationStrategy : CanvasNavigationStrategy := .ZOOM
  secondaryNavigationStrategy : CanvasNavigationStrategy := .PAN
deriving DecidableEq, Repr

/-- DEFAULT_SETTINGS (src/main.ts lines 111-129), restricted to the
modelled fields. -/
def DEFAULT_SETTINGS : CanvasMinimapSettings := {}

/-- Side midpoint of a node box: the node center offset by the half-extent
in the direction named by `side`; any other side throws
(src/main.ts lines 198-213). -/
def sidePositionOf (node : Node) (side : String) : Except String Vector2 :=
  let origin : Vector2 := ⟨node.x, node.y⟩
  let radius : Vector2 := ⟨node.width / 2, node.height / 2⟩
  let center := Vector2.add origin radius
  if side = "left" then
    .ok (Vector2.sub center ⟨radius.x, 0⟩)
  else if side = "right" then
    .ok (Vector2.add center ⟨radius.x, 0⟩)
  else if side = "top" then
    .ok (Vector2.sub center ⟨0, radius.y⟩)
  else if side = "bottom" then
    .ok (Vector2.add center ⟨0, radius.y⟩)
  else
    .error ("invalid side " ++ side)

/-- One endpoint of a canvas edge: the node it attaches to and the side
label, as read through e.from.node / e.from.side (src/main.ts lines
299-300). The field names `fromEnd` and `toEnd` stand for the source
fields `from` and `to`, which are reserved words here. -/
structure EdgeEnd where
  node : Node
  side : String
deriving DecidableEq, Repr

/-- A canvas edge as the plugin reads it. The orientation of the link is
read from the separate `fromSide` property (src/main.ts line 307) while
the endpoints are read from `fromEnd.side` and `toEnd.side`. -/
structure Edge where
  fromEnd : EdgeEnd
  toEnd : EdgeEnd
  fromSide : String
deriving DecidableEq, Repr

/-- The two d3 link generators used for edges. -/
inductive LinkOrientation where
  | horizontal
  | vertical
deriving DecidableEq, Repr

/-- linkAnchor (src/main.ts lines 303-306): horizontal for left/right,
vertical otherwise. -/
def linkAnchor (side : String) : LinkOrientation :=
  if side = "left" ∨ side = "right" then .horizontal else .vertical

/-- The path element produced for one edge: which link generator was used
and the source/target coordinate pairs handed to it (src/main.ts lines
307-311). -/
structure EdgePath where
  orientation : LinkOrientation
  source : ℚ × ℚ
  target : ℚ × ℚ
deriving DecidableEq, Repr

/-- Rendering of one edge (src/main.ts lines 298-311): compute the two
side midpoints (the first throw propagates) and build the path with the
generator chosen by e.fromSide. -/
def renderEdge (e : Edge) : Except String EdgePath :=
  match sidePositionOf e.fromEnd.node e.fromEnd.side,
        sidePositionOf e.toEnd.node e.toEnd.side with
  | .error msg, _ => .error msg
  | .ok _, .error msg => .error msg
  | .ok fromPos, .ok toPos =>
      .ok { orientation := linkAnchor e.fromSide
            source := (fromPos.x, fromPos.y)
            target := (toPos.x, toPos.y) }

/-- What one call to renderMinimap produces, restricted to the geometric
outputs: the stored canvas_bounds, the viewBox attribute written on the
svg as the (x, y, width, height) quadruple of src/main.ts line 240, the
group and child partitions in iteration order, and the edge paths. -/
structure Scene where
  canvas_bounds : BoundingBox
  viewBox : ℚ × ℚ × ℚ × ℚ
  groups : List Node
  children : List Node
  edgePaths : Except String (List EdgePath)
deriving Repr

/-- renderMinimap (src/main.ts lines 194-329), geometric outputs: fold the
content box from a zero-initialized box, partition nodes into groups
(unknownData.type equal to the string group) and children, store
canvas_bounds as the content box expanded by the margin setting on all
four sides, and emit the viewBox quadruple and the edge paths. -/
def renderMinimap (settings : CanvasMinimapSettings) (nodes : List Node)
    (edges : List Edge) : Scene :=
  let bbox := contentBBox nodes
  let groups := nodes.filter fun n => n.nodeType = some "group"
  let children := nodes.filter fun n => ¬ n.nodeType = some "group"
  let canvas_bounds : BoundingBox :=
    { minX := bbox.minX - settings.margin
      minY := bbox.minY - settings.margin
      maxX := bbox.maxX + settings.margin
      maxY := bbox.maxY + settings.margin }
  { canvas_bounds := canvas_bounds
    viewBox := (canvas_bounds.minX, canvas_bounds.minY,
                canvas_bounds.width, canvas_bounds.height)
    groups := groups
    children := children
    edgePaths := edges.mapM renderEdge }

/-- Squared distance from the top-left corner of a box to the click point,
as computed at src/main.ts lines 632 and 635. -/
def cornerDistSq (x y : ℚ) (b : BoundingBox) : ℚ :=
  Vector2.lenSq ⟨b.minX - x, b.minY - y⟩

/-- One iteration of the nearest-node loop (src/main.ts lines 633-640):
keep the candidate whose corner distance is strictly smaller. -/
def nearestStep (x y : ℚ) (acc : BoundingBox × ℚ) (n : Node) :
    BoundingBox × ℚ :=
  let d := cornerDistSq x y n.bbox
  if d < acc.2 then (n.bbox, d) else acc

/-- The box selected by the click handler loop: start from the first
target node and scan the whole target list (src/main.ts lines 631-640). -/
def nearestBBox (x y : ℚ) (t0 : Node) (targets : List Node) : BoundingBox :=
  (targets.foldl (nearestStep x y) (t0.bbox, cornerDistSq x y t0.bbox)).1

/-- The navigation call the click handler issues into the host canvas. -/
inductive NavAction where
  | panTo (x y : ℚ)
  | zoomToBbox (b : BoundingBox)
deriving DecidableEq, Repr

/-- The svg click handler (src/main.ts lines 612-649): reject clicks
outside the rendered extent, hit-test the rendered node rects (the
viewport indicator is not among them), pick the nearest-corner target,
then dispatch by the strategy selected with the Ctrl modifier. -/
def svgClick (settings : CanvasMinimapSettings) (isCtrlHeld : Bool)
    (x y : ℚ) (svg_bbox : BoundingBox) (nodes : List Node) :
    Option NavAction :=
  if ¬ (svg_bbox.contains ⟨x, y⟩ = true) then
    none
  else
    let target_nodes := nodes.filter fun n => n.bbox.contains ⟨x, y⟩
    match target_nodes with
    | [] => none
    | t0 :: rest =>
      let bbox := nearestBBox x y t0 (t0 :: rest)
      let navigation_strategy :=
        if isCtrlHeld then settings.secondaryNavigationStrategy
        else settings.primaryNavigationStrategy
      match navigation_strategy with
      | .PAN =>
          some (.panTo (bbox.minX + (bbox.maxX - bbox.minX) / 2)
                       (bbox.minY + (bbox.maxY - bbox.minY) / 2))
      | .ZOOM => some (.zoomToBbox bbox)
      | .NONE => none

/-- A host canvas instance for the patching model. Each of the four
interceptable methods is represented by the list of events one invocation
of it dispatches through the plugin event bus; the unpatched host methods
dispatch none. -/
structure Canvas where
  markMoved : List CanvasEventType := []
  markDirty : List CanvasEventType := []
  markViewportChanged : List CanvasEventType := []
  requestFrame : List CanvasEventType := []
deriving DecidableEq, Repr

/-- The plugin-side mutable state the modelled paths touch: the
canvas_patched flag (src/main.ts line 134), the number of CANVAS_TICK
registrations of CanvasMinimap.onCanvasUpdate on the event bus, and
whether the overlay div and the toolbar div are in the document body. -/
structure PluginState where
  canvas_patched : Bool := false
  tickHandlers : ℕ := 0
  minimapInDom : Bool := false
  toolbarInDom : Bool := false
deriving DecidableEq, Repr

/-- patchCanvas (src/main.ts lines 364-394). When a canvas is given, each
of the four prototype methods is wrapped: the wrapper calls the previous
implementation and then dispatches the corresponding event, so the event
list of each method grows by one entry per call to patchCanvas. The
canvas_patched flag is set to true but the function never reads it, so
nothing stops a second call from wrapping again. In every case one more
CANVAS_TICK listener is registered on the event bus. -/
def patchCanvas : Option Canvas → PluginState → Option Canvas × PluginState
  | some canvas, s =>
      (some { markMoved := canvas.markMoved ++ [.CANVAS_MOVED]
              markDirty := canvas.markDirty ++ [.CANVAS_DIRTY]
              markViewportChanged :=
                canvas.markViewportChanged ++ [.CANVAS_VIEWPORT_CHANGED]
              requestFrame := canvas.requestFrame ++ [.CANVAS_TICK] },
       { s with canvas_patched := true, tickHandlers := s.tickHandlers + 1 })
  | none, s => (none, { s with tickHandlers := s.tickHandlers + 1 })

/-- unloadMinimap (src/main.ts lines 407-424). Only when a canvas view is
active does it remove the overlay div and the toolbar div from the body
and unregister the CANVAS_TICK listener (the event-bus off removes the
registrations of the given callback); with no active canvas the whole
body is skipped and the state is left untouched. -/
def unloadMinimap (hasActiveCanvas : Bool) (s : PluginState) : PluginState :=
  if hasActiveCanvas then
    { s with minimapInDom := false, toolbarInDom := false, tickHandlers := 0 }
  else
    s

/-! ## Helper lemmas -/

theorem bboxAccum_zeroJoin (b : BoundingBox) (n : Node) :
    bboxAccum (zeroJoin b) n = zeroJoin (bboxAccum b n) := by
  simp [bboxAccum, zeroJoin, min_assoc, max_assoc]

theorem foldl_bboxAccum_zeroJoin (l : List Node) (b : BoundingBox) :
    l.foldl bboxAccum (zeroJoin b) = zeroJoin (l.foldl bboxAccum b) := by
  induction l generalizing b with
  | nil => rfl
  | cons n l ih =>
      simp only [List.foldl_cons, bboxAccum_zeroJoin]
      exact ih (bboxAccum b n)

theorem bboxAccum_default (n : Node) : bboxAccum {} n = zeroJoin n.bbox := rfl

theorem foldl_bboxAccum_mono (l : List Node) (b : BoundingBox) :
    (l.foldl bboxAccum b).minX ≤ b.minX ∧ (l.foldl bboxAccum b).minY ≤ b.minY ∧
    b.maxX ≤ (l.foldl bboxAccum b).maxX ∧ b.maxY ≤ (l.foldl bboxAccum b).maxY := by
  induction l generalizing b with
  | nil => exact ⟨le_refl _, le_refl _, le_refl _, le_refl _⟩
  | cons n l ih =>
      obtain ⟨h1, h2, h3, h4⟩ := ih (bboxAccum b n)
      exact ⟨h1.trans (min_le_left _ _), h2.trans (min_le_left _ _),
        (le_max_left _ _).trans h3, (le_max_left _ _).trans h4⟩

/-! ## Claim theorems -/

/-- C1 counterexample: for the single node at (50, 50) with size 20 by 20,
renderMinimap computes a content box whose minX is 0, not 50, so the box
is not the pure min/max over the node extents as the claim states. -/
theorem contentBBox_not_pure_minmax :
    contentBBox [{ id := "n", x := 50, y := 50, width := 20, height := 20 }] ≠
      specMinMaxBBox { id := "n", x := 50, y := 50, width := 20, height := 20 } [] ∧
    (contentBBox [{ id := "n", x := 50, y := 50, width := 20, height := 20 }]).minX = 0 := by
  constructor
  · decide
  · rfl

/-- C1 amended: the content box computed inside renderMinimap is the
min/max fold seeded from the zero-initialized box, so for a nonempty node
list it equals the pure min/max box over the node extents joined with the
zero box, and for the empty node list it is exactly the default
zero-initialized box, which is invalid and has all fields equal to the
rational 0 (no NaN and no infinity can arise). -/
theorem contentBBox_eq_zeroJoin_specMinMax :
    contentBBox ([] : List Node) = ({} : BoundingBox) ∧
    ({} : BoundingBox).isValid = false ∧
    ∀ (n0 : Node) (rest : List Node),
      contentBBox (n0 :: rest) = zeroJoin (specMinMaxBBox n0 rest) := by
  refine ⟨rfl, by decide, ?_⟩
  intro n0 rest
  show (n0 :: rest).foldl bboxAccum {} = _
  rw [List.foldl_cons, bboxAccum_default, foldl_bboxAccum_zeroJoin]
  rfl

/-- C2: patchCanvas sets the canvas_patched flag but never reads it, so a
second call on the same canvas wraps the four prototype methods again:
after two calls, a single invocation of any wrapped method dispatches two
events, not one. -/
theorem patchCanvas_double_patch_double_emit :
    (patchCanvas (some {}) {}).2.canvas_patched = true ∧
    (patchCanvas (patchCanvas (some {}) {}).1 (patchCanvas (some {}) {}).2).1 =
      some { markMoved := [.CANVAS_MOVED, .CANVAS_MOVED]
             markDirty := [.CANVAS_DIRTY, .CANVAS_DIRTY]
             markViewportChanged := [.CANVAS_VIEWPORT_CHANGED, .CANVAS_VIEWPORT_CHANGED]
             requestFrame := [.CANVAS_TICK, .CANVAS_TICK] } := by
  exact ⟨rfl, rfl⟩

/-- C5 counterexample: when no canvas view is active, unloadMinimap skips
its whole body, so an overlay div that is in the document and a registered
CANVAS_TICK listener both survive the call. -/
theorem unloadMinimap_no_canvas_keeps_overlay :
    (unloadMinimap false
      { canvas_patched := true, tickHandlers := 1, minimapInDom := true }).minimapInDom
        = true ∧
    (unloadMinimap false
      { canvas_patched := true, tickHandlers := 1, minimapInDom := true }).tickHandlers
        = 1 := by
  exact ⟨rfl, rfl⟩

/-- C5 amended: when a canvas view is active, unloadMinimap removes the
overlay div and the toolbar div from the document and unregisters the
CANVAS_TICK listener; when no canvas view is active it changes nothing. -/
theorem unloadMinimap_active_canvas_clean (s : PluginState) :
    (unloadMinimap true s).minimapInDom = false ∧
    (unloadMinimap true s).toolbarInDom = false ∧
    (unloadMinimap true s).tickHandlers = 0 ∧
    unloadMinimap false s = s := by
  exact ⟨rfl, rfl, rfl, rfl⟩

/-- C6: sidePositionOf returns the node center offset by minus or plus the
half width in x for sides left and right, the center offset by minus or
plus the half height in y for sides top and bottom, and throws a
descriptive error naming the side for any other side value. -/
theorem sidePositionOf_cases (node : Node) :
    sidePositionOf node "left" =
      .ok ⟨node.x + node.width / 2 - node.width / 2, node.y + node.height / 2⟩ ∧
    sidePositionOf node "right" =
      .ok ⟨node.x + node.width / 2 + node.width / 2, node.y + node.height / 2⟩ ∧
    sidePositionOf node "top" =
      .ok ⟨node.x + node.width / 2, node.y + node.height / 2 - node.height / 2⟩ ∧
    sidePositionOf node "bottom" =
      .ok ⟨node.x + node.width / 2, node.y + node.height / 2 + node.height / 2⟩ ∧
    ∀ side : String, side ∉ (["left", "right", "top", "bottom"] : List String) →
      sidePositionOf node side = .error ("invalid side " ++ side) := by
  refine ⟨?_, ?_, ?_, ?_, ?_⟩
  · simp [sidePositionOf, Vector2.add, Vector2.sub]
  · simp [sidePositionOf, Vector2.add, Vector2.sub]
  · simp [sidePositionOf, Vector2.add, Vector2.sub]
  · simp [sidePositionOf, Vector2.add, Vector2.sub]
  · intro side hside
    simp only [List.mem_cons, List.mem_singleton, not_or] at hside
    obtain ⟨h1, h2, h3, h4⟩ := hside
    simp [sidePositionOf, h1, h2, h3, h4]

/-- C10: containment in a bounding box is inclusive on all four
boundaries, so a point exactly on an edge or a corner of the box counts
as contained and a click exactly on the border of the rendered extent is
accepted by the hit test. -/
theorem contains_inclusive_iff (b : BoundingBox) (p : Vector2) :
    b.contains p = true ↔
      b.minX ≤ p.x ∧ p.x ≤ b.maxX ∧ b.minY ≤ p.y ∧ p.y ≤ b.maxY := by
  simp [BoundingBox.contains, ge_iff_le, and_assoc]

/-- C7: the stored canvas_bounds is the computed content box expanded by
the margin setting on all four sides, and for the snapshot with group g1
at (0, 0) sized 200 by 200, child n1 at (50, 50) sized 20 by 20 and
margin 10, the rendered viewBox is (-10, -10, 220, 220) as the
(x, y, width, height) quadruple. -/
theorem canvas_bounds_margin_expansion (settings : CanvasMinimapSettings)
    (nodes : List Node) (edges : List Edge) :
    ((renderMinimap settings nodes edges).canvas_bounds =
      { minX := (contentBBox nodes).minX - settings.margin
        minY := (contentBBox nodes).minY - settings.margin
        maxX := (contentBBox nodes).maxX + settings.margin
        maxY := (contentBBox nodes).maxY + settings.margin }) ∧
    (renderMinimap { DEFAULT_SETTINGS with margin := 10 }
        [{ id := "g1", x := 0, y := 0, width := 200, height := 200,
           nodeType := some "group" },
         { id := "n1", x := 50, y := 50, width := 20, height := 20 }]
        []).viewBox = (-10, -10, 220, 220) := by
  refine ⟨rfl, ?_⟩
  norm_num [renderMinimap, contentBBox, bboxAccum, BoundingBox.width,
    BoundingBox.height, min_def, max_def, Prod.ext_iff]

/-- C9: because the min/max accumulation in renderMinimap starts from the
zero-initialized box, the computed content box always contains the world
origin, and with a positive margin the stored canvas_bounds is a valid
box, even for an empty node set. -/
theorem contentBBox_contains_origin (settings : CanvasMinimapSettings)
    (nodes : List Node) (edges : List Edge) :
    ((contentBBox nodes).minX ≤ 0 ∧ 0 ≤ (contentBBox nodes).maxX ∧
     (contentBBox nodes).minY ≤ 0 ∧ 0 ≤ (contentBBox nodes).maxY) ∧
    (0 < settings.margin →
      (renderMinimap settings nodes edges).canvas_bounds.isValid = true) := by
  obtain ⟨h1, h2, h3, h4⟩ := foldl_bboxAccum_mono nodes {}
  have horig : (contentBBox nodes).minX ≤ 0 ∧ 0 ≤ (contentBBox nodes).maxX ∧
      (contentBBox nodes).minY ≤ 0 ∧ 0 ≤ (contentBBox nodes).maxY :=
    ⟨h1, h3, h2, h4⟩
  refine ⟨horig, ?_⟩
  intro hm
  have hx : (contentBBox nodes).minX - settings.margin <
      (contentBBox nodes).maxX + settings.margin := by
    have ha := horig.1
    have hb := horig.2.1
    linarith
  have hy : (contentBBox nodes).minY - settings.margin <
      (contentBBox nodes).maxY + settings.margin := by
    have ha := horig.2.2.1
    have hb := horig.2.2.2
    linarith
  simp [renderMinimap, BoundingBox.isValid, hx, hy]

/-- The invariant of the nearest-node loop in the svg click handler: the
accumulator always carries the corner distance of its own box, the final
box is the initial one or one of the scanned boxes, and the final distance
is a lower bound for the initial one and for every scanned candidate. -/
theorem nearest_foldl_spec (x y : ℚ) (l : List Node) (acc : BoundingBox × ℚ)
    (hacc : acc.2 = cornerDistSq x y acc.1) :
    ((l.foldl (nearestStep x y) acc).2 =
        cornerDistSq x y (l.foldl (nearestStep x y) acc).1) ∧
    ((l.foldl (nearestStep x y) acc).1 = acc.1 ∨
        (l.foldl (nearestStep x y) acc).1 ∈ l.map Node.bbox) ∧
    (l.foldl (nearestStep x y) acc).2 ≤ acc.2 ∧
    ∀ n ∈ l, (l.foldl (nearestStep x y) acc).2 ≤ cornerDistSq x y n.bbox := by
  induction l generalizing acc with
  | nil =>
      refine ⟨hacc, Or.inl rfl, le_refl _, ?_⟩
      intro n hn
      exact absurd hn (List.not_mem_nil n)
  | cons m l ih =>
      simp only [List.foldl_cons]
      by_cases h : cornerDistSq x y m.bbox < acc.2
      · have hstep : nearestStep x y acc m = (m.bbox, cornerDistSq x y m.bbox) := by
          simp [nearestStep, h]
        rw [hstep]
        obtain ⟨ha, hb, hc, hd⟩ := ih (m.bbox, cornerDistSq x y m.bbox) rfl
        refine ⟨ha, ?_, hc.trans h.le, ?_⟩
        · rcases hb with hb | hb
          · refine Or.inr ?_
            rw [List.map_cons, hb]
            exact List.mem_cons_self _ _
          · refine Or.inr ?_
            rw [List.map_cons]
            exact List.mem_cons_of_mem _ hb
        · intro n hn
          rcases List.mem_cons.mp hn with hn | hn
          · subst hn; exact hc
          · exact hd n hn
      · have hstep : nearestStep x y acc m = acc := by
          simp [nearestStep, h]
        rw [hstep]
        obtain ⟨ha, hb, hc, hd⟩ := ih acc hacc
        refine ⟨ha, ?_, hc, ?_⟩
        · rcases hb with hb | hb
          · exact Or.inl hb
          · refine Or.inr ?_
            rw [List.map_cons]
            exact List.mem_cons_of_mem _ hb
        · intro n hn
          rcases List.mem_cons.mp hn with hn | hn
          · subst hn; exact hc.trans (not_lt.mp h)
          · exact hd n hn

/-- C3: the box selected by the click handler loop is the rendered box of
one of the hit nodes and its top-left corner has the smallest squared
Euclidean distance to the click point among all hit nodes; in particular
a click at (50, 50) over the two overlapping rects with corners (40, 40)
and (45, 45) resolves to the node with corner (45, 45). -/
theorem svgClick_selects_nearest_corner :
    (∀ (x y : ℚ) (t0 : Node) (rest : List Node),
      nearestBBox x y t0 (t0 :: rest) ∈ (t0 :: rest).map Node.bbox ∧
      ∀ n ∈ t0 :: rest,
        cornerDistSq x y (nearestBBox x y t0 (t0 :: rest)) ≤
          cornerDistSq x y n.bbox) ∧
    svgClick DEFAULT_SETTINGS false 50 50
        { minX := 0, minY := 0, maxX := 100, maxY := 100 }
        [{ id := "a", x := 40, y := 40, width := 20, height := 20 },
         { id := "b", x := 45, y := 45, width := 20, height := 20 }] =
      some (.zoomToBbox { minX := 45, minY := 45, maxX := 65, maxY := 65 }) := by
  constructor
  · intro x y t0 rest
    obtain ⟨ha, hb, hc, hd⟩ :=
      nearest_foldl_spec x y (t0 :: rest) (t0.bbox, cornerDistSq x y t0.bbox) rfl
    constructor
    · rcases hb with hb | hb
      · have h0 : nearestBBox x y t0 (t0 :: rest) = t0.bbox := hb
        rw [h0, List.map_cons]
        exact List.mem_cons_self _ _
      · exact hb
    · intro n hn
      have hle := hd n hn
      rw [ha] at hle
      exact hle
  · norm_num [svgClick, BoundingBox.contains, Node.bbox, nearestBBox,
      nearestStep, cornerDistSq, Vector2.lenSq, DEFAULT_SETTINGS,
      List.filter, decide_eq_true_eq]

/-- C4: when a click resolves to a target, the secondary strategy is used
exactly when the Ctrl modifier is held and the primary strategy otherwise;
strategy PAN issues panTo at the center of the target box, strategy ZOOM
issues zoomToBbox with the full target box, strategy NONE issues no call,
and a click whose hit test finds no rectangle issues no call. -/
theorem svgClick_strategy_dispatch (settings : CanvasMinimapSettings)
    (isCtrlHeld : Bool) (x y : ℚ) (svg_bbox : BoundingBox) (nodes : List Node) :
    (∀ (t0 : Node) (rest : List Node),
      svg_bbox.contains ⟨x, y⟩ = true →
      nodes.filter (fun n => n.bbox.contains ⟨x, y⟩) = t0 :: rest →
      (((if isCtrlHeld then settings.secondaryNavigationStrategy
         else settings.primaryNavigationStrategy) = .PAN →
        svgClick settings isCtrlHeld x y svg_bbox nodes =
          some (.panTo
            (((nearestBBox x y t0 (t0 :: rest)).minX +
                (nearestBBox x y t0 (t0 :: rest)).maxX) / 2)
            (((nearestBBox x y t0 (t0 :: rest)).minY +
                (nearestBBox x y t0 (t0 :: rest)).maxY) / 2))) ∧
       ((if isCtrlHeld then settings.secondaryNavigationStrategy
         else settings.primaryNavigationStrategy) = .ZOOM →
        svgClick settings isCtrlHeld x y svg_bbox nodes =
          some (.zoomToBbox (nearestBBox x y t0 (t0 :: rest)))) ∧
       ((if isCtrlHeld then settings.secondaryNavigationStrategy
         else settings.primaryNavigationStrategy) = .NONE →
        svgClick settings isCtrlHeld x y svg_bbox nodes = none))) ∧
    (nodes.filter (fun n => n.bbox.contains ⟨x, y⟩) = [] →
      svgClick settings isCtrlHeld x y svg_bbox nodes = none) := by
  constructor
  · intro t0 rest hin hfilter
    refine ⟨?_, ?_, ?_⟩
    · intro hstrat
      simp only [svgClick, hin, hfilter, hstrat, not_true_eq_false, if_false,
        Option.some.injEq, NavAction.panTo.injEq]
      constructor <;> ring
    · intro hstrat
      simp [svgClick, hin, hfilter, hstrat]
    · intro hstrat
      simp [svgClick, hin, hfilter, hstrat]
  · intro hfilter
    by_cases hin : svg_bbox.contains ⟨x, y⟩ = true
    · simp [svgClick, hin, hfilter]
    · simp [svgClick, hin]

/-- C8: for an edge whose separate fromSide property agrees with the
declared side of its source end, the rendered path uses the horizontal
link generator exactly when that side is left or right and the vertical
one otherwise, with its endpoints at the side midpoints computed by
sidePositionOf for the source and target ends. -/
theorem renderEdge_orientation_endpoints (e : Edge) (fromPos toPos : Vector2)
    (hside : e.fromSide = e.fromEnd.side)
    (hfrom : sidePositionOf e.fromEnd.node e.fromEnd.side = .ok fromPos)
    (hto : sidePositionOf e.toEnd.node e.toEnd.side = .ok toPos) :
    renderEdge e =
      .ok { orientation :=
              if e.fromEnd.side = "left" ∨ e.fromEnd.side = "right" then
                LinkOrientation.horizontal
              else LinkOrientation.vertical
            source := (fromPos.x, fromPos.y)
            target := (toPos.x, toPos.y) } := by
  unfold renderEdge
  rw [hfrom, hto]
  simp [linkAnchor, hside]

/-- C8 witness: the edge out of the right side of the node at (50, 50)
sized 20 by 20 into the left side of the node at (30, 40) sized 10 by 10
renders as a horizontal link from (70, 60) to (30, 45). -/
theorem renderEdge_orientation_endpoints_witness :
    renderEdge
      { fromEnd := { node := { id := "a", x := 50, y := 50, width := 20, height := 20 }
                     side := "right" }
        toEnd := { node := { id := "b", x := 30, y := 40, width := 10, height := 10 }
                   side := "left" }
        fromSide := "right" } =
      .ok { orientation := .horizontal, source := (70, 60), target := (30, 45) } := by
  have hf : sidePositionOf
      { id := "a", x := 50, y := 50, width := 20, height := 20 } "right" =
      .ok ⟨70, 60⟩ := by
    have hne : ("right" : String) ≠ "left" := by decide
    norm_num [sidePositionOf, Vector2.add, Vector2.mk.injEq, hne]
  have ht : sidePositionOf
      { id := "b", x := 30, y := 40, width := 10, height := 10 } "left" =
      .ok ⟨30, 45⟩ := by
    norm_num [sidePositionOf, Vector2.add, Vector2.sub, Vector2.mk.injEq]
  have h := renderEdge_orientation_endpoints
    { fromEnd := { node := { id := "a", x := 50, y := 50, width := 20, height := 20 }
                   side := "right" }
      toEnd := { node := { id := "b", x := 30, y := 40, width := 10, height := 10 }
                 side := "left" }
      fromSide := "right" } ⟨70, 60⟩ ⟨30, 45⟩ rfl hf ht
  simpa using h

end CanvasMinimap
